import Mathlib

/-!
Verification development for the sandbox-runtime repository.

The repository wraps a user command with filesystem/network isolation.
Source files embedded here: `src/cli.ts` (command assembly, default
config) and `src/utils/config-loader.ts` (loadConfig, watchConfigFile).
The enforcement core (linux-sandbox-utils, the filesystem compiler, the
network proxy supervisor and the SandboxManager) is not present in the
repository snapshot; those parts are modelled from the specification and
the repository's own test files, and each such definition is marked
`Modelled from the spec:` in its doc comment.
-/

/- ## Network policy and the proxy filtering rule -/

/-- Network part of a policy: `allowedDomains` / `deniedDomains`
(spec section 3, `sandbox-config` schema). -/
structure NetworkPolicy where
  allowedDomains : List String
  deniedDomains : List String
deriving Repr, DecidableEq

/-- Modelled from the spec: "if `deniedDomains` matches" — whether a
hostname matches any entry of a domain list, for an arbitrary per-domain
match relation `m` (the spec does not fix the matching of a single
domain pattern, so it is a parameter). -/
def listMatches (m : String → String → Bool) (ds : List String) (h : String) : Bool :=
  ds.any (fun d => m d h)

/-- Modelled from the spec: the proxy's per-connection filtering rule
(spec 4.4 `start`): extract the hostname; if `deniedDomains` matches,
refuse; else if `allowedDomains` is non-empty, allow only on match
(default-deny); else allow (default-allow). `true` = allow. The proxy
implementation is missing from the repository snapshot. -/
def filterDecision (m : String → String → Bool) (p : NetworkPolicy) (h : String) : Bool :=
  if listMatches m p.deniedDomains h then false
  else if p.allowedDomains.isEmpty then true
  else listMatches m p.allowedDomains h

/- ## Filesystem policy compiler -/

/-- Filesystem part of a policy (spec section 3). -/
structure FilesystemPolicy where
  denyRead : List String
  allowWrite : List String
  denyWrite : List String
deriving Repr, DecidableEq

/-- A directive of the compiled mount plan: mask (contents hidden),
read-write bind, or read-only bind (spec 4.3). -/
inductive MountDirective where
  | mask (path : String)
  | bindRW (path : String)
  | bindRO (path : String)
deriving Repr, DecidableEq

/-- Modelled from the spec: the filesystem policy compiler (spec 4.3,
missing from the repository snapshot). Starting from a read-only
baseline, emit a mask directive per `denyRead` pattern, a read-write
bind per `allowWrite` pattern, and a read-only bind per `denyWrite`
pattern, in declaration order within each category and in the combined
(denyRead, allowWrite, denyWrite) sequence; later directives on the same
path win. -/
def compileFilesystem (fs : FilesystemPolicy) : List MountDirective :=
  fs.denyRead.map MountDirective.mask
    ++ fs.allowWrite.map MountDirective.bindRW
    ++ fs.denyWrite.map MountDirective.bindRO

/- ## Dependency probe -/

/-- Host environment as seen by the probe: whether `which bwrap` /
`which socat` succeed, and the seccomp bytecode / apply-helper paths
(each `none` when not found). Mirrors the mock state of
`test/linux-sandbox-utils` tests. -/
structure DepEnv where
  bwrapInstalled : Bool
  socatInstalled : Bool
  bpfPath : Option String
  applyPath : Option String
deriving Repr, DecidableEq

/-- `DependencyCheckResult`: errors block sandbox creation; warnings
permit degraded operation (spec section 3). -/
structure DependencyCheckResult where
  errors : List String
  warnings : List String
deriving Repr, DecidableEq

/-- Modelled from the spec: `checkLinuxDependencies` of
`src/sandbox/linux-sandbox-utils.ts`, missing from the repository
snapshot; behaviour fixed by spec 4.1 and the repository's own tests:
a missing bwrap and a missing socat are each one error, a missing
seccomp bytecode or apply-helper is a single warning; findings are
aggregated, never short-circuited. Message strings are the ones the
tests assert. -/
def checkLinuxDependencies (env : DepEnv) : DependencyCheckResult :=
  { errors :=
      (if env.bwrapInstalled then [] else ["bubblewrap (bwrap) not installed"])
        ++ (if env.socatInstalled then [] else ["socat not installed"])
    warnings :=
      if env.bpfPath.isSome && env.applyPath.isSome then []
      else ["seccomp not available - unix socket access not restricted"] }

/-- `DependencyStatus`: independent boolean capability flags
(spec section 3; field names from the repository tests). -/
structure DependencyStatus where
  hasBwrap : Bool
  hasSocat : Bool
  hasSeccompBpf : Bool
  hasSeccompApply : Bool
deriving Repr, DecidableEq

/-- Modelled from the spec: `getLinuxDependencyStatus` of
`src/sandbox/linux-sandbox-utils.ts`, missing from the repository
snapshot; spec 4.1: the same underlying checks exposed as independent
boolean flags, each flag computed independently from its own
dependency. -/
def getLinuxDependencyStatus (env : DepEnv) : DependencyStatus :=
  { hasBwrap := env.bwrapInstalled
    hasSocat := env.socatInstalled
    hasSeccompBpf := env.bpfPath.isSome
    hasSeccompApply := env.applyPath.isSome }

/- ## Proxy supervisor (fail-closed invariant) -/

/-- Liveness of the filtering proxy process. -/
inductive ProxyStatus where
  | alive
  | dead
deriving Repr, DecidableEq

/-- Modelled from the spec: supervisor-visible state — whether the
proxy process is alive and whether the sandboxed child is still
running (spec 4.4). -/
structure SupervisorState where
  proxy : ProxyStatus
  childRunning : Bool
deriving Repr, DecidableEq

/-- Events the supervisor observes while the sandbox runs. -/
inductive SupEvent where
  | proxyCrash
  | childExit
  | connAttempt (host : String)
deriving Repr, DecidableEq

/-- Modelled from the spec: the supervisor's reaction to runtime events
(spec 4.4 fail-closed invariant): a proxy crash marks the proxy dead and
is never followed by a restart-and-resume; no event revives the
proxy. -/
def supervisorStep (st : SupervisorState) (e : SupEvent) : SupervisorState :=
  match e with
  | SupEvent.proxyCrash => { st with proxy := ProxyStatus.dead }
  | SupEvent.childExit => { st with childRunning := false }
  | SupEvent.connAttempt _ => st

/-- Run the supervisor over a sequence of events. -/
def runSupervisor (st : SupervisorState) (evs : List SupEvent) : SupervisorState :=
  evs.foldl supervisorStep st

/-- Modelled from the spec: the decision for a connection attempt under
supervision — while the proxy is alive, the policy's filtering rule
applies; once the proxy is dead, connectivity is treated as revoked
(deny-all, spec 4.4). `true` = allow. -/
def connectionDecision (m : String → String → Bool) (net : NetworkPolicy)
    (st : SupervisorState) (h : String) : Bool :=
  match st.proxy with
  | ProxyStatus.alive => filterDecision m net h
  | ProxyStatus.dead => false

/- ## Sandbox runtime configuration (src/sandbox/sandbox-config.ts shape) -/

/-- A full `SandboxRuntimeConfig`: network and filesystem policy
(the shape `getDefaultConfig` in `src/cli.ts` constructs). -/
structure SandboxRuntimeConfig where
  network : NetworkPolicy
  filesystem : FilesystemPolicy
deriving Repr, DecidableEq

/- ## Sandbox Manager (composition root) -/

/-- `SandboxState` of the Manager (spec section 3). -/
inductive SandboxState where
  | uninitialized
  | ready
  | tornDown
deriving Repr, DecidableEq

/-- Errors of the Manager's public operations (spec section 7). -/
inductive SbxError where
  | notInitialized
  | dependenciesUnavailable
deriving Repr, DecidableEq

/-- Modelled from the spec: the SandboxManager's owned state — lifecycle
state, stored policy, proxy handle and seccomp artifact path (spec 4.5;
the Manager implementation is missing from the repository snapshot). -/
structure Manager where
  state : SandboxState
  policy : Option SandboxRuntimeConfig
  proxyHandle : Option Nat
  artifact : Option String
deriving Repr, DecidableEq

/-- A Manager that has not been set up yet. -/
def freshManager : Manager :=
  { state := SandboxState.uninitialized, policy := none
    proxyHandle := none, artifact := none }

/-- Render one mount directive as isolation-tool arguments. -/
def renderDirective : MountDirective → String
  | MountDirective.mask p => "--tmpfs " ++ p
  | MountDirective.bindRW p => "--bind " ++ p ++ " " ++ p
  | MountDirective.bindRO p => "--ro-bind " ++ p ++ " " ++ p

/-- Modelled from the spec: assembling the final invocation (spec 4.5
`wrapWithSandbox`): the isolation tool with the compiled mount
directives, then the apply-helper when an artifact is available, then
the literal target command. -/
def assembleCommand (m : Manager) (cmd : String) : String :=
  let fsPlan := compileFilesystem
    ((m.policy.getD { network := { allowedDomains := [], deniedDomains := [] }
                      filesystem := { denyRead := [], allowWrite := [], denyWrite := [] } }).filesystem)
  String.intercalate " "
    (["bwrap"] ++ fsPlan.map renderDirective
      ++ (match m.artifact with | some a => [a] | none => []) ++ [cmd])

/-- Modelled from the spec: `wrapWithSandbox` (spec 4.5): pure with
respect to state; in `UNINITIALIZED` or `TORN_DOWN` it fails with
`NotInitialized` and has no side effects. Returns the result together
with the (unchanged) Manager to make the absence of side effects a
provable statement. -/
def wrapWithSandbox (m : Manager) (cmd : String) : Except SbxError String × Manager :=
  match m.state with
  | SandboxState.ready => (Except.ok (assembleCommand m cmd), m)
  | _ => (Except.error SbxError.notInitialized, m)

/-- Modelled from the spec: `updateConfig` (spec 4.5): in `READY`,
replaces the stored policy and reconfigures the live proxy, staying
`READY`; otherwise fails with `NotInitialized` and changes nothing. -/
def updateConfig (m : Manager) (p : SandboxRuntimeConfig) : Except SbxError Unit × Manager :=
  match m.state with
  | SandboxState.ready => (Except.ok (), { m with policy := some p })
  | _ => (Except.error SbxError.notInitialized, m)

/-- Modelled from the spec: `initialize` (spec 4.5): from
`UNINITIALIZED`, fails with `DependenciesUnavailable` on error-level
probe findings (state unchanged), otherwise acquires the filter
(best-effort), starts the proxy and becomes `READY`; re-invocation in
`READY` tears the previous proxy/filter down first and stays `READY`;
`SandboxState` is monotonic, so a torn-down Manager is not revived. -/
def initManager (m : Manager) (p : SandboxRuntimeConfig) (env : DepEnv) :
    Except SbxError Unit × Manager :=
  match m.state with
  | SandboxState.tornDown => (Except.error SbxError.notInitialized, m)
  | _ =>
    if (checkLinuxDependencies env).errors ≠ [] then
      (Except.error SbxError.dependenciesUnavailable, m)
    else
      (Except.ok (),
        { state := SandboxState.ready, policy := some p
          proxyHandle := some 0
          artifact := match env.bpfPath, env.applyPath with
                      | some _, some a => some a
                      | _, _ => none })

/-- Modelled from the spec: `teardown` (spec 4.5 and section 5): from
`READY`, stops the proxy and releases the filter artifact, reaching
`TORN_DOWN`; idempotent, and a no-op on a Manager that owns nothing. -/
def teardown (m : Manager) : Manager :=
  match m.state with
  | SandboxState.ready =>
    { state := SandboxState.tornDown, policy := m.policy
      proxyHandle := none, artifact := none }
  | _ => m

/-- One public Manager operation, for stating the state machine. -/
inductive MgrOp where
  | opInit (p : SandboxRuntimeConfig) (env : DepEnv)
  | opUpdate (p : SandboxRuntimeConfig)
  | opWrap (cmd : String)
  | opTeardown

/-- Effect of one public operation on the Manager. -/
def applyOp (m : Manager) : MgrOp → Manager
  | MgrOp.opInit p env => (initManager m p env).2
  | MgrOp.opUpdate p => (updateConfig m p).2
  | MgrOp.opWrap cmd => (wrapWithSandbox m cmd).2
  | MgrOp.opTeardown => teardown m

/- ## Config loader (src/utils/config-loader.ts) -/

/-- A snapshot of the filesystem as the config loader sees it: each
path either has a file with some content or no file (`fs.existsSync` /
`fs.readFileSync`). -/
structure FileSys where
  contents : String → Option String

/-- Embedding of `loadConfig` (`src/utils/config-loader.ts` lines
18-53). `parse` models `JSON.parse` (`none` = thrown `SyntaxError`,
caught and turned into `null`); `validate` models
`SandboxRuntimeConfigSchema.safeParse` (`none` = validation failure;
the schema itself lives in `sandbox-config.ts`, outside the snapshot,
so both stay parameters). The filesystem is threaded through to state
that the loader never mutates it; `console.error` logging is dropped. -/
def loadConfig {J C : Type} (parse : String → Option J) (validate : J → Option C)
    (fs : FileSys) (path : String) : Option C × FileSys :=
  match fs.contents path with
  | none => (none, fs)
  | some content =>
    if content.trim = "" then (none, fs)
    else
      match parse content with
      | none => (none, fs)
      | some j =>
        match validate j with
        | none => (none, fs)
        | some c => (some c, fs)

/-- Embedding of the per-event body of `watchConfigFile`
(`src/utils/config-loader.ts` lines 76-92) over a sequence of file
events: at each event the file is re-loaded from the filesystem
snapshot current at that event, and `onUpdate` is invoked exactly when
`loadConfig` returns a config. The result is the list of configs
delivered to the callback, in order. -/
def watchDeliveries {J C : Type} (parse : String → Option J) (validate : J → Option C)
    (path : String) (snapshots : List FileSys) : List C :=
  snapshots.filterMap (fun fs => (loadConfig parse validate fs path).1)

/- ## CLI (src/cli.ts) -/

/-- Embedding of `getDefaultConfig` (`src/cli.ts` lines 21-33): the
minimal config used when no config file exists — every list empty. -/
def getDefaultConfig : SandboxRuntimeConfig :=
  { network := { allowedDomains := [], deniedDomains := [] }
    filesystem := { denyRead := [], allowWrite := [], denyWrite := [] } }

/-- Embedding of `src/cli.ts` lines 71-78: the runtime config is the
loaded one, or `getDefaultConfig` when `loadConfig` returned `null`. -/
def resolveRuntimeConfig (loaded : Option SandboxRuntimeConfig) : SandboxRuntimeConfig :=
  loaded.getD getDefaultConfig

/-- JavaScript truthiness of `options.c`: `undefined` and the empty
string are falsy (`if (options.c)` in `src/cli.ts` line 92). -/
def strTruthy : Option String → Bool
  | none => false
  | some v => decide (v ≠ "")

/-- Embedding of the command-determination logic of `src/cli.ts` lines
90-105: if `options.c` is truthy, the command string is used directly
with no escaping; else if there are command arguments, they are joined
by single spaces; else the CLI prints an error and exits (modelled as
`none`) without reaching `wrapWithSandbox`. -/
def determineCommand (cOpt : Option String) (args : List String) : Option String :=
  if strTruthy cOpt then cOpt
  else if args.length > 0 then some (String.intercalate " " args)
  else none

/- ## Helper lemmas -/

/-- Once the proxy is dead, no single event revives it. -/
theorem supervisorStep_preserves_dead (st : SupervisorState) (e : SupEvent)
    (h : st.proxy = ProxyStatus.dead) : (supervisorStep st e).proxy = ProxyStatus.dead := by
  cases e <;> simp [supervisorStep, h]

/-- Once the proxy is dead, it stays dead along any event sequence. -/
theorem runSupervisor_preserves_dead (evs : List SupEvent) :
    ∀ (st : SupervisorState), st.proxy = ProxyStatus.dead →
      (runSupervisor st evs).proxy = ProxyStatus.dead := by
  induction evs with
  | nil => intro st h; exact h
  | cons e rest ih =>
    intro st h
    exact ih (supervisorStep st e) (supervisorStep_preserves_dead st e h)

/-- In `UNINITIALIZED` or `TORN_DOWN`, `wrapWithSandbox` fails with
`NotInitialized` and leaves the Manager untouched. -/
theorem wrap_notInitialized (m : Manager) (cmd : String)
    (h : m.state = SandboxState.uninitialized ∨ m.state = SandboxState.tornDown) :
    wrapWithSandbox m cmd = (Except.error SbxError.notInitialized, m) := by
  rcases h with h | h <;> simp [wrapWithSandbox, h]

/-- In `UNINITIALIZED` or `TORN_DOWN`, `updateConfig` fails with
`NotInitialized` and leaves the Manager untouched. -/
theorem update_notInitialized (m : Manager) (p : SandboxRuntimeConfig)
    (h : m.state = SandboxState.uninitialized ∨ m.state = SandboxState.tornDown) :
    updateConfig m p = (Except.error SbxError.notInitialized, m) := by
  rcases h with h | h <;> simp [updateConfig, h]

/-- Every public operation either leaves the lifecycle state unchanged,
moves `UNINITIALIZED` to `READY` via a successful initialisation, or
moves `READY` to `TORN_DOWN` via teardown. -/
theorem applyOp_transitions (m : Manager) (op : MgrOp) :
    (applyOp m op).state = m.state
    ∨ (m.state = SandboxState.uninitialized ∧ (applyOp m op).state = SandboxState.ready
       ∧ ∃ q env, op = MgrOp.opInit q env ∧ (initManager m q env).1 = Except.ok ())
    ∨ (m.state = SandboxState.ready ∧ (applyOp m op).state = SandboxState.tornDown
       ∧ op = MgrOp.opTeardown) := by
  cases op with
  | opInit q env =>
    by_cases herr : (checkLinuxDependencies env).errors = []
    · cases hst : m.state with
      | uninitialized =>
        right; left
        refine ⟨rfl, ?_, q, env, rfl, ?_⟩
        · simp [applyOp, initManager, hst, herr]
        · simp [initManager, hst, herr]
      | ready => left; simp [applyOp, initManager, hst, herr]
      | tornDown => left; simp [applyOp, initManager, hst]
    · left
      cases hst : m.state <;> simp [applyOp, initManager, hst, herr]
  | opUpdate p =>
    left; cases hst : m.state <;> simp [applyOp, updateConfig, hst]
  | opWrap cmd =>
    left; cases hst : m.state <;> simp [applyOp, wrapWithSandbox, hst]
  | opTeardown =>
    cases hst : m.state with
    | ready => right; right; exact ⟨rfl, by simp [applyOp, teardown, hst], rfl⟩
    | uninitialized => left; simp [applyOp, teardown, hst]
    | tornDown => left; simp [applyOp, teardown, hst]

/-- A config returned by `loadConfig` passed schema validation. -/
theorem loadConfig_some_valid {J C : Type} (parse : String → Option J)
    (validate : J → Option C) (fs : FileSys) (path : String) (c : C)
    (h : (loadConfig parse validate fs path).1 = some c) :
    ∃ j, validate j = some c := by
  unfold loadConfig at h
  cases hc : fs.contents path with
  | none => rw [hc] at h; simp at h
  | some content =>
    rw [hc] at h
    by_cases ht : content.trim = ""
    · simp [ht] at h
    · simp only [if_neg ht] at h
      cases hp : parse content with
      | none => rw [hp] at h; simp at h
      | some j =>
        rw [hp] at h
        cases hv : validate j with
        | none => simp [hv] at h
        | some c2 =>
          simp [hv] at h
          exact ⟨j, by rw [hv, h]⟩

/- ## Claim theorems -/

/-- Claim C1: for every network policy and connection attempt with
hostname `h`, the proxy refuses when `deniedDomains` matches; otherwise,
with a non-empty allow-list, it allows exactly on an allow-list match;
otherwise it allows; and a domain present in both lists is always
refused (deny wins). -/
theorem network_filter_rule_C1 :
    ∀ (m : String → String → Bool) (p : NetworkPolicy) (h : String),
      (listMatches m p.deniedDomains h = true → filterDecision m p h = false)
      ∧ (listMatches m p.deniedDomains h = false → p.allowedDomains ≠ [] →
          filterDecision m p h = listMatches m p.allowedDomains h)
      ∧ (listMatches m p.deniedDomains h = false → p.allowedDomains = [] →
          filterDecision m p h = true)
      ∧ ((∀ d, m d d = true) → h ∈ p.allowedDomains → h ∈ p.deniedDomains →
          filterDecision m p h = false) := by
  intro m p h
  refine ⟨?_, ?_, ?_, ?_⟩
  · intro hd; simp [filterDecision, hd]
  · intro hd hne
    have he : p.allowedDomains.isEmpty = false := by
      simpa [List.isEmpty_iff] using hne
    simp [filterDecision, hd, he]
  · intro hd he; simp [filterDecision, hd, he]
  · intro hrefl hin hdin
    have hd : listMatches m p.deniedDomains h = true := by
      simp only [listMatches, List.any_eq_true]
      exact ⟨h, hdin, hrefl h⟩
    simp [filterDecision, hd]

/-- Witness for C1 at a concrete policy: `both.example`, present in both
lists, is refused. -/
theorem network_filter_rule_C1_witness :
    filterDecision (fun a b => a == b)
      { allowedDomains := ["both.example"], deniedDomains := ["both.example"] }
      "both.example" = false :=
  (network_filter_rule_C1 (fun a b => a == b)
      { allowedDomains := ["both.example"], deniedDomains := ["both.example"] }
      "both.example").2.2.2 (fun d => by simp) (by simp) (by simp)

/-- Claim C2: once the proxy has died while the child runs, the
supervisor never revives it (a crash event makes the proxy dead, and a
dead proxy stays dead across every later event sequence) and every
connection attempt from then on is refused (deny-all). -/
theorem proxy_crash_fail_closed_C2 :
    ∀ (st : SupervisorState) (evs : List SupEvent) (m : String → String → Bool)
      (net : NetworkPolicy) (h : String),
      (supervisorStep st SupEvent.proxyCrash).proxy = ProxyStatus.dead
      ∧ (st.proxy = ProxyStatus.dead →
          (runSupervisor st evs).proxy = ProxyStatus.dead
          ∧ connectionDecision m net (runSupervisor st evs) h = false) := by
  intro st evs m net h
  refine ⟨rfl, ?_⟩
  intro hd
  have hdead := runSupervisor_preserves_dead evs st hd
  exact ⟨hdead, by simp [connectionDecision, hdead]⟩

/-- Witness for C2: after a crash, a later connection attempt on a
policy that would otherwise allow everything is refused. -/
theorem proxy_crash_fail_closed_C2_witness :
    connectionDecision (fun a b => a == b)
      { allowedDomains := [], deniedDomains := [] }
      (runSupervisor { proxy := ProxyStatus.dead, childRunning := true }
        [SupEvent.connAttempt "any.example"]) "any.example" = false :=
  ((proxy_crash_fail_closed_C2 { proxy := ProxyStatus.dead, childRunning := true }
      [SupEvent.connAttempt "any.example"] (fun a b => a == b)
      { allowedDomains := [], deniedDomains := [] } "any.example").2 rfl).2

/-- Claim C3: with all four primitives present `checkLinuxDependencies`
returns no errors and no warnings; with only bwrap missing, exactly one
error and no warnings; with only the seccomp bytecode missing, no errors
and exactly one warning; with bwrap and socat both missing, exactly two
errors — findings are aggregated, never short-circuited. -/
theorem dependency_check_C3 :
    checkLinuxDependencies
        { bwrapInstalled := true, socatInstalled := true
          bpfPath := some "/path/to/filter.bpf", applyPath := some "/path/to/apply-seccomp" }
      = { errors := [], warnings := [] }
    ∧ checkLinuxDependencies
        { bwrapInstalled := false, socatInstalled := true
          bpfPath := some "/path/to/filter.bpf", applyPath := some "/path/to/apply-seccomp" }
      = { errors := ["bubblewrap (bwrap) not installed"], warnings := [] }
    ∧ checkLinuxDependencies
        { bwrapInstalled := true, socatInstalled := true
          bpfPath := none, applyPath := some "/path/to/apply-seccomp" }
      = { errors := []
          warnings := ["seccomp not available - unix socket access not restricted"] }
    ∧ checkLinuxDependencies
        { bwrapInstalled := false, socatInstalled := false
          bpfPath := some "/path/to/filter.bpf", applyPath := some "/path/to/apply-seccomp" }
      = { errors := ["bubblewrap (bwrap) not installed", "socat not installed"]
          warnings := [] } :=
  ⟨rfl, rfl, rfl, rfl⟩

/-- Claim C4: the policy `denyRead=[/secret], allowWrite=[/work],
denyWrite=[/work/readonly]` compiles to a plan that masks `/secret`
(a mask directive, not a read-only bind), binds `/work` read-write and
binds `/work/readonly` read-only although it lies under `/work`; and in
general every `denyWrite` pattern yields a read-only bind directive in
the compiled plan. -/
theorem filesystem_compile_C4 :
    compileFilesystem
        { denyRead := ["/secret"], allowWrite := ["/work"], denyWrite := ["/work/readonly"] }
      = [MountDirective.mask "/secret", MountDirective.bindRW "/work",
         MountDirective.bindRO "/work/readonly"]
    ∧ ∀ (fsp : FilesystemPolicy) (p : String),
        p ∈ fsp.denyWrite → MountDirective.bindRO p ∈ compileFilesystem fsp := by
  refine ⟨rfl, ?_⟩
  intro fsp p hp
  unfold compileFilesystem
  exact List.mem_append_right _ (List.mem_map_of_mem _ hp)

/-- Witness for C4: `/work/readonly` is in `denyWrite` of the example
policy and its read-only bind is in the compiled plan. -/
theorem filesystem_compile_C4_witness :
    MountDirective.bindRO "/work/readonly" ∈
      compileFilesystem
        { denyRead := ["/secret"], allowWrite := ["/work"], denyWrite := ["/work/readonly"] } :=
  filesystem_compile_C4.2
    { denyRead := ["/secret"], allowWrite := ["/work"], denyWrite := ["/work/readonly"] }
    "/work/readonly" (by simp)

/-- Claim C5: in `UNINITIALIZED` or `TORN_DOWN`, `wrapWithSandbox` and
`updateConfig` fail with `NotInitialized` and leave the Manager (state
and owned resources) unchanged; and every public operation either keeps
the lifecycle state, moves `UNINITIALIZED` to `READY` on a successful
initialisation, or moves `READY` to `TORN_DOWN` on teardown —
`updateConfig` from `READY` stays `READY`. -/
theorem manager_lifecycle_C5 :
    ∀ (m : Manager) (p : SandboxRuntimeConfig) (cmd : String) (op : MgrOp),
      ((m.state = SandboxState.uninitialized ∨ m.state = SandboxState.tornDown) →
        wrapWithSandbox m cmd = (Except.error SbxError.notInitialized, m)
        ∧ updateConfig m p = (Except.error SbxError.notInitialized, m))
      ∧ ((applyOp m op).state = m.state
         ∨ (m.state = SandboxState.uninitialized ∧ (applyOp m op).state = SandboxState.ready
            ∧ ∃ q env, op = MgrOp.opInit q env ∧ (initManager m q env).1 = Except.ok ())
         ∨ (m.state = SandboxState.ready ∧ (applyOp m op).state = SandboxState.tornDown
            ∧ op = MgrOp.opTeardown))
      ∧ (m.state = SandboxState.ready → (updateConfig m p).2.state = SandboxState.ready) := by
  intro m p cmd op
  refine ⟨fun h => ⟨wrap_notInitialized m cmd h, update_notInitialized m p h⟩,
          applyOp_transitions m op, ?_⟩
  intro h
  simp [updateConfig, h]

/-- Witness for C5: a fresh (uninitialised) Manager rejects
`wrapWithSandbox` with `NotInitialized`, unchanged. -/
theorem manager_lifecycle_C5_witness :
    wrapWithSandbox freshManager "ls" = (Except.error SbxError.notInitialized, freshManager) :=
  ((manager_lifecycle_C5 freshManager getDefaultConfig "ls" MgrOp.opTeardown).1 (Or.inl rfl)).1

/-- Claim C6: the watcher delivers to its callback only configurations
that parsed and validated successfully — an event at which the file is
deleted, is invalid JSON, or fails schema validation (all the cases
where `loadConfig` yields `null`) contributes no callback invocation,
and every delivered config passed schema validation. -/
theorem watch_valid_only_C6 :
    ∀ (J : Type) (parse : String → Option J)
      (validate : J → Option SandboxRuntimeConfig) (path : String),
      (∀ (fs : FileSys) (rest : List FileSys),
        (loadConfig parse validate fs path).1 = none →
        watchDeliveries parse validate path (fs :: rest)
          = watchDeliveries parse validate path rest)
      ∧ (∀ (snaps : List FileSys) (c : SandboxRuntimeConfig),
          c ∈ watchDeliveries parse validate path snaps → ∃ j, validate j = some c) := by
  intro J parse validate path
  constructor
  · intro fs rest h
    simp [watchDeliveries, List.filterMap_cons, h]
  · intro snaps c hc
    simp only [watchDeliveries, List.mem_filterMap] at hc
    obtain ⟨fs, _, hsome⟩ := hc
    exact loadConfig_some_valid parse validate fs path c hsome

/-- Witness for C6: an event at which the file has been deleted leads to
no callback invocation. -/
theorem watch_valid_only_C6_witness :
    watchDeliveries (fun _ => some 0) (fun _ : Nat => some getDefaultConfig) "cfg"
        [{ contents := fun _ => none }]
      = watchDeliveries (fun _ => some 0) (fun _ : Nat => some getDefaultConfig) "cfg" [] :=
  (watch_valid_only_C6 Nat (fun _ => some 0) (fun _ => some getDefaultConfig) "cfg").1
    { contents := fun _ => none } [] rfl

/-- Claim C8 counterexample: with `-c ''` (the empty string) and
arguments `echo hi`, the code falls through JavaScript truthiness and
passes `echo hi`, not the `-c` argument `''`, to `wrapWithSandbox` —
so "when the -c option is given, the string is exactly the -c argument"
fails as stated. -/
theorem cli_command_assembly_C8_counterexample :
    determineCommand (some "") ["echo", "hi"] = some "echo hi"
    ∧ some "echo hi" ≠ (some "" : Option String) := by
  refine ⟨rfl, ?_⟩
  simp

/-- Claim C8 (amended): when `-c` is given with a non-empty string, the
command passed on is exactly that string with no escaping; otherwise
(no `-c`, or `-c` with the empty string) a non-empty argument list is
joined by single spaces; with neither a truthy `-c` nor arguments, the
CLI errors out without a command to wrap. -/
theorem cli_command_assembly_C8 :
    ∀ (s : String) (cOpt : Option String) (args : List String),
      (s ≠ "" → determineCommand (some s) args = some s)
      ∧ (args ≠ [] → (cOpt = none ∨ cOpt = some "") →
          determineCommand cOpt args = some (String.intercalate " " args))
      ∧ determineCommand none [] = none
      ∧ determineCommand (some "") [] = none := by
  intro s cOpt args
  refine ⟨?_, ?_, rfl, rfl⟩
  · intro hs
    simp [determineCommand, strTruthy, hs]
  · intro ha hc
    have hlen : args.length > 0 := List.length_pos.mpr ha
    rcases hc with rfl | rfl <;> simp [determineCommand, strTruthy, hlen]

/-- Witness for C8: a non-empty `-c` string is passed through verbatim,
and without `-c` the arguments are joined by single spaces. -/
theorem cli_command_assembly_C8_witness :
    determineCommand (some "ls -la") ["ignored"] = some "ls -la"
    ∧ determineCommand none ["echo", "hi"] = some (String.intercalate " " ["echo", "hi"]) :=
  ⟨(cli_command_assembly_C8 "ls -la" none ["ignored"]).1 (by decide),
   (cli_command_assembly_C8 "x" none ["echo", "hi"]).2.1 (by simp) (Or.inl rfl)⟩

/-- Claim C9: `loadConfig` is a total function of the filesystem: it
never mutates the filesystem, it returns `null` when the file is
missing, empty or whitespace-only, fails to parse, or fails schema
validation, and any returned config passed schema validation. -/
theorem loadConfig_total_C9 :
    ∀ (J C : Type) (parse : String → Option J) (validate : J → Option C)
      (fs : FileSys) (path : String),
      (loadConfig parse validate fs path).2 = fs
      ∧ (fs.contents path = none → (loadConfig parse validate fs path).1 = none)
      ∧ (∀ content, fs.contents path = some content → content.trim = "" →
          (loadConfig parse validate fs path).1 = none)
      ∧ (∀ content, fs.contents path = some content → parse content = none →
          (loadConfig parse validate fs path).1 = none)
      ∧ (∀ content j, fs.contents path = some content → parse content = some j →
          validate j = none → (loadConfig parse validate fs path).1 = none)
      ∧ (∀ c, (loadConfig parse validate fs path).1 = some c → ∃ j, validate j = some c) := by
  intro J C parse validate fs path
  refine ⟨?_, ?_, ?_, ?_, ?_, ?_⟩
  · unfold loadConfig
    split
    · rfl
    · split
      · rfl
      · split
        · rfl
        · split <;> rfl
  · intro h; simp [loadConfig, h]
  · intro content hc ht; simp [loadConfig, hc, ht]
  · intro content hc hp
    by_cases ht : content.trim = "" <;> simp [loadConfig, hc, ht, hp]
  · intro content j hc hp hv
    by_cases ht : content.trim = "" <;> simp [loadConfig, hc, ht, hp, hv]
  · intro c h
    exact loadConfig_some_valid parse validate fs path c h

/-- Witness for C9 at a concrete input: a missing file loads as `null`. -/
theorem loadConfig_total_C9_witness :
    (loadConfig (fun _ => some 0) (fun _ : Nat => some 0)
        { contents := fun _ => none } "cfg").1 = (none : Option Nat) :=
  (loadConfig_total_C9 Nat Nat (fun _ => some 0) (fun _ => some 0)
      { contents := fun _ => none } "cfg").2.1 rfl

/-- Claim C10: with no usable config file the CLI falls back to the
default config, whose five policy lists are all empty; under the
filtering rule every hostname is then allowed, and the compiled
filesystem plan is empty (nothing masked, nothing writable beyond the
read-only baseline). -/
theorem default_config_C10 :
    resolveRuntimeConfig none = getDefaultConfig
    ∧ getDefaultConfig.network.allowedDomains = []
    ∧ getDefaultConfig.network.deniedDomains = []
    ∧ getDefaultConfig.filesystem.denyRead = []
    ∧ getDefaultConfig.filesystem.allowWrite = []
    ∧ getDefaultConfig.filesystem.denyWrite = []
    ∧ (∀ (m : String → String → Bool) (h : String),
        filterDecision m getDefaultConfig.network h = true)
    ∧ compileFilesystem getDefaultConfig.filesystem = [] := by
  refine ⟨rfl, rfl, rfl, rfl, rfl, rfl, ?_, rfl⟩
  intro m h
  rfl

/-- Claim C7: each flag of `getLinuxDependencyStatus` depends only on
its own dependency — for any two host environments agreeing on all
dependencies but one, every other flag is identical. -/
theorem dependency_status_independent_C7 :
    ∀ (e1 e2 : DepEnv),
      (e1.socatInstalled = e2.socatInstalled → e1.bpfPath = e2.bpfPath →
        e1.applyPath = e2.applyPath →
        (getLinuxDependencyStatus e1).hasSocat = (getLinuxDependencyStatus e2).hasSocat
        ∧ (getLinuxDependencyStatus e1).hasSeccompBpf
            = (getLinuxDependencyStatus e2).hasSeccompBpf
        ∧ (getLinuxDependencyStatus e1).hasSeccompApply
            = (getLinuxDependencyStatus e2).hasSeccompApply)
      ∧ (e1.bwrapInstalled = e2.bwrapInstalled → e1.bpfPath = e2.bpfPath →
          e1.applyPath = e2.applyPath →
          (getLinuxDependencyStatus e1).hasBwrap = (getLinuxDependencyStatus e2).hasBwrap
          ∧ (getLinuxDependencyStatus e1).hasSeccompBpf
              = (getLinuxDependencyStatus e2).hasSeccompBpf
          ∧ (getLinuxDependencyStatus e1).hasSeccompApply
              = (getLinuxDependencyStatus e2).hasSeccompApply)
      ∧ (e1.bwrapInstalled = e2.bwrapInstalled → e1.socatInstalled = e2.socatInstalled →
          e1.applyPath = e2.applyPath →
          (getLinuxDependencyStatus e1).hasBwrap = (getLinuxDependencyStatus e2).hasBwrap
          ∧ (getLinuxDependencyStatus e1).hasSocat = (getLinuxDependencyStatus e2).hasSocat
          ∧ (getLinuxDependencyStatus e1).hasSeccompApply
              = (getLinuxDependencyStatus e2).hasSeccompApply)
      ∧ (e1.bwrapInstalled = e2.bwrapInstalled → e1.socatInstalled = e2.socatInstalled →
          e1.bpfPath = e2.bpfPath →
          (getLinuxDependencyStatus e1).hasBwrap = (getLinuxDependencyStatus e2).hasBwrap
          ∧ (getLinuxDependencyStatus e1).hasSocat = (getLinuxDependencyStatus e2).hasSocat
          ∧ (getLinuxDependencyStatus e1).hasSeccompBpf
              = (getLinuxDependencyStatus e2).hasSeccompBpf) := by
  intro e1 e2
  refine ⟨?_, ?_, ?_, ?_⟩ <;> intro h1 h2 h3 <;>
    simp [getLinuxDependencyStatus, h1, h2, h3]

/-- Witness for C7: removing bwrap leaves the socat flag unchanged. -/
theorem dependency_status_independent_C7_witness :
    (getLinuxDependencyStatus
        { bwrapInstalled := true, socatInstalled := true
          bpfPath := some "/b", applyPath := some "/a" }).hasSocat
      = (getLinuxDependencyStatus
          { bwrapInstalled := false, socatInstalled := true
            bpfPath := some "/b", applyPath := some "/a" }).hasSocat :=
  ((dependency_status_independent_C7
      { bwrapInstalled := true, socatInstalled := true
        bpfPath := some "/b", applyPath := some "/a" }
      { bwrapInstalled := false, socatInstalled := true
        bpfPath := some "/b", applyPath := some "/a" }).1 rfl rfl rfl).1
